import Mathlib

/-!
Shallow embedding of `src/devs-ebook-converter.py`: the `convert_ebook`
dispatcher and the post-upload logic of `main`.

Byte streams are lists of naturals.  The Streamlit `UploadedFile` is a named
byte buffer with an explicit read position: `read()` returns the bytes from
the current position to the end and leaves the position at the end, exactly
as for a Python `BytesIO` that is read twice.

The external library `ebooklib` is a parameter: a record of read and write
routines that either produce a value or raise (modelled with `Except`, the
error string being the exception message).  A write that succeeds creates the
output file with the produced bytes; a write that raises creates nothing.

The filesystem effects of one call are tracked explicitly: `created` records
every file the call creates (path and content, in order) and `files` records
the files still existing when control returns to the caller.  `errors`
records the `st.error` messages emitted, and `libCalls` the names of the
library read/write routines invoked, in order.
-/

abbrev ByteContent := List Nat

/-- A Streamlit uploaded file: originating filename, byte content, and the
current read position of the underlying stream. -/
structure UploadedFile where
  name : String
  content : ByteContent
  pos : Nat
deriving Repr, DecidableEq

/-- The parsed in-memory book object produced by the library read routines. -/
structure Book where
  id : Nat
deriving Repr, DecidableEq

/-- The external conversion library (`ebooklib` in the source): read routines
take the bytes of the staged input file, write routines return the bytes the
output file will hold.  `Except.error` models a raised exception. -/
structure EbookLib where
  read_epub : ByteContent → Except String Book
  read_mobi : ByteContent → Except String Book
  read_azw3 : ByteContent → Except String Book
  write_epub : Book → Except String ByteContent
  write_mobi : Book → Except String ByteContent
  write_azw3 : Book → Except String ByteContent

/-- `INPUT_FORMATS` from the source. -/
def INPUT_FORMATS : List String := ["epub", "mobi", "azw3"]

/-- `OUTPUT_FORMATS` from the source. -/
def OUTPUT_FORMATS : List String := ["epub", "mobi", "azw3"]

/-- A single-quote character, used inside the error message below. -/
def squote : String := String.mk [Char.ofNat 39]

/-- The `st.error` message of the unsupported-input-format branch. -/
def inputFormatErrorMsg (input_format : String) : String :=
  "Error: Input format " ++ squote ++ input_format ++ squote ++
    " not supported.  Supported formats: " ++ String.intercalate ", " INPUT_FORMATS

/-- The `st.error` message of the hard-coded mobi-to-azw3 rejection. -/
def mobiAzw3ErrorMsg : String :=
  "Error: Conversion from Mobi to AZW3 is not supported."

/-- The `st.error` message of the generic unsupported-pair branch. -/
def pairErrorMsg (input_format output_format : String) : String :=
  "Conversion from " ++ input_format ++ " to " ++ output_format ++ " is not supported."

/-- The `st.error` message of the `except` handler. -/
def convErrMsg (e : String) : String :=
  "An error occurred during conversion: " ++ e

/-- The characters of a path after its last path separator. -/
def basenameChars (l : List Char) : List Char :=
  (l.reverse.takeWhile (fun c => c ≠ '/')).reverse

/-- `os.path.splitext(p)[1]` on a basename: the part of `b` from its last
dot on, provided some character before that dot is not itself a dot
(Python treats an all-dots lead as no extension); otherwise empty. -/
def pyExtChars (b : List Char) : List Char :=
  let r := b.reverse
  let afterDotRev := r.takeWhile (fun c => c ≠ '.')
  if afterDotRev.length = r.length then []
  else if (r.drop (afterDotRev.length + 1)).any (fun c => c ≠ '.') then
    '.' :: afterDotRev.reverse
  else []

/-- `os.path.splitext(p)[1][1:].lower()`: how `convert_ebook` infers the
input format from the staged temp file path. -/
def inferFormat (p : String) : String :=
  String.mk (((pyExtChars (basenameChars p.data)).drop 1).map Char.toLower)

instance {ε α : Type} [DecidableEq ε] [DecidableEq α] : DecidableEq (Except ε α) := fun x y =>
  match x, y with
  | .ok a, .ok b =>
    if h : a = b then isTrue (congrArg Except.ok h)
    else isFalse (fun hc => h (Except.ok.inj hc))
  | .error a, .error b =>
    if h : a = b then isTrue (congrArg Except.error h)
    else isFalse (fun hc => h (Except.error.inj hc))
  | .ok _, .error _ => isFalse (fun hc => Except.noConfusion hc)
  | .error _, .ok _ => isFalse (fun hc => Except.noConfusion hc)

/-- Result of the `try` body of `convert_ebook`.  `outcome` is `Except.error`
when an exception escapes the body (to be caught by the handler), otherwise
`Except.ok` with the value the body returns. -/
structure InnerOut where
  outcome : Except String (Option ByteContent)
  files : List (String × ByteContent)
  created : List (String × ByteContent)
  errors : List String
  libCalls : List String
deriving Repr, DecidableEq

/-- The `try` body of `convert_ebook`: stage the upload to the temp file
`tmpPath`, infer the input format from `tmpPath`, then dispatch on the
format pair exactly as the `if`/`elif` chain of the source does.  Only the
successful cross-format path removes the two staged files. -/
def convert_try (lib : EbookLib) (tmpPath : String) (input_file : UploadedFile)
    (output_format output_name : String) : InnerOut :=
  let fileContent := input_file.content.drop input_file.pos
  let input_file1 : UploadedFile := { input_file with pos := input_file.content.length }
  let files0 : List (String × ByteContent) := [(tmpPath, fileContent)]
  let input_format := inferFormat tmpPath
  if input_format ∈ INPUT_FORMATS then
    let output_file_path := output_name ++ "." ++ output_format
    if input_format = output_format then
      { outcome := .ok (some (input_file1.content.drop input_file1.pos)),
        files := files0, created := files0, errors := [], libCalls := [] }
    else if input_format = "epub" ∧ output_format = "mobi" then
      match lib.read_epub fileContent with
      | .error e =>
        { outcome := .error e, files := files0, created := files0,
          errors := [], libCalls := ["read_epub"] }
      | .ok book =>
        match lib.write_mobi book with
        | .error e =>
          { outcome := .error e, files := files0, created := files0,
            errors := [], libCalls := ["read_epub", "write_mobi"] }
        | .ok outBytes =>
          { outcome := .ok (some outBytes), files := [],
            created := files0 ++ [(output_file_path, outBytes)],
            errors := [], libCalls := ["read_epub", "write_mobi"] }
    else if input_format = "epub" ∧ output_format = "azw3" then
      match lib.read_epub fileContent with
      | .error e =>
        { outcome := .error e, files := files0, created := files0,
          errors := [], libCalls := ["read_epub"] }
      | .ok book =>
        match lib.write_azw3 book with
        | .error e =>
          { outcome := .error e, files := files0, created := files0,
            errors := [], libCalls := ["read_epub", "write_azw3"] }
        | .ok outBytes =>
          { outcome := .ok (some outBytes), files := [],
            created := files0 ++ [(output_file_path, outBytes)],
            errors := [], libCalls := ["read_epub", "write_azw3"] }
    else if input_format = "mobi" ∧ output_format = "epub" then
      match lib.read_mobi fileContent with
      | .error e =>
        { outcome := .error e, files := files0, created := files0,
          errors := [], libCalls := ["read_mobi"] }
      | .ok book =>
        match lib.write_epub book with
        | .error e =>
          { outcome := .error e, files := files0, created := files0,
            errors := [], libCalls := ["read_mobi", "write_epub"] }
        | .ok outBytes =>
          { outcome := .ok (some outBytes), files := [],
            created := files0 ++ [(output_file_path, outBytes)],
            errors := [], libCalls := ["read_mobi", "write_epub"] }
    else if input_format = "mobi" ∧ output_format = "azw3" then
      match lib.read_mobi fileContent with
      | .error e =>
        { outcome := .error e, files := files0, created := files0,
          errors := [], libCalls := ["read_mobi"] }
      | .ok _book =>
        { outcome := .ok none, files := files0, created := files0,
          errors := [mobiAzw3ErrorMsg], libCalls := ["read_mobi"] }
    else if input_format = "azw3" ∧ output_format = "epub" then
      match lib.read_azw3 fileContent with
      | .error e =>
        { outcome := .error e, files := files0, created := files0,
          errors := [], libCalls := ["read_azw3"] }
      | .ok book =>
        match lib.write_epub book with
        | .error e =>
          { outcome := .error e, files := files0, created := files0,
            errors := [], libCalls := ["read_azw3", "write_epub"] }
        | .ok outBytes =>
          { outcome := .ok (some outBytes), files := [],
            created := files0 ++ [(output_file_path, outBytes)],
            errors := [], libCalls := ["read_azw3", "write_epub"] }
    else if input_format = "azw3" ∧ output_format = "mobi" then
      match lib.read_azw3 fileContent with
      | .error e =>
        { outcome := .error e, files := files0, created := files0,
          errors := [], libCalls := ["read_azw3"] }
      | .ok book =>
        match lib.write_mobi book with
        | .error e =>
          { outcome := .error e, files := files0, created := files0,
            errors := [], libCalls := ["read_azw3", "write_mobi"] }
        | .ok outBytes =>
          { outcome := .ok (some outBytes), files := [],
            created := files0 ++ [(output_file_path, outBytes)],
            errors := [], libCalls := ["read_azw3", "write_mobi"] }
    else
      { outcome := .ok none, files := files0, created := files0,
        errors := [pairErrorMsg input_format output_format], libCalls := [] }
  else
    { outcome := .ok none, files := files0, created := files0,
      errors := [inputFormatErrorMsg input_format], libCalls := [] }

/-- The observable result of one `convert_ebook` call. -/
structure ConvResult where
  ret : Option ByteContent
  files : List (String × ByteContent)
  created : List (String × ByteContent)
  errors : List String
  libCalls : List String
deriving Repr, DecidableEq

/-- `convert_ebook(input_file, output_format, output_name)`: the `try` body
wrapped by the `except Exception` handler, which emits the caught-error
message and returns `None`.  `tmpPath` is the name `NamedTemporaryFile`
chose for the staged input. -/
def convert_ebook (lib : EbookLib) (tmpPath : String) (input_file : UploadedFile)
    (output_format output_name : String) : ConvResult :=
  let r := convert_try lib tmpPath input_file output_format output_name
  match r.outcome with
  | .ok v =>
    { ret := v, files := r.files, created := r.created,
      errors := r.errors, libCalls := r.libCalls }
  | .error e =>
    { ret := none, files := r.files, created := r.created,
      errors := r.errors ++ [convErrMsg e], libCalls := r.libCalls }

/-- A rendering event of the Streamlit shell. -/
inductive ShellEvent where
  | info (msg : String)
  | errorMsg (msg : String)
  | success (msg : String)
  | download (label fileName mime : String) (data : ByteContent)
deriving Repr, DecidableEq

/-- Result of one run of `main` past the upload widget. -/
structure ShellOut where
  events : List ShellEvent
  dispatcherInvoked : Bool
deriving Repr, DecidableEq

/-- The logic of `main` after the widgets: bail out with an info message when
nothing is uploaded; on the Convert button, reject an empty output name
before dispatch, otherwise call `convert_ebook` and render either the
success message plus download button or the failure message.  The `st.error`
messages emitted inside `convert_ebook` render as error events first. -/
def mainLogic (lib : EbookLib) (tmpPath : String) (uploaded : Option UploadedFile)
    (output_format output_name : String) (buttonPressed : Bool) : ShellOut :=
  match uploaded with
  | none =>
    { events := [.info "Please upload an ebook file to begin the conversion."],
      dispatcherInvoked := false }
  | some f =>
    if buttonPressed then
      if output_name = "" then
        { events := [.errorMsg "Please enter a valid output file name."],
          dispatcherInvoked := false }
      else
        let r := convert_ebook lib tmpPath f output_format output_name
        match r.ret with
        | some bytes =>
          { events := r.errors.map ShellEvent.errorMsg ++
              [.success ("Successfully converted to " ++ output_format ++ "!"),
               .download ("Download " ++ output_name ++ "." ++ output_format)
                 (output_name ++ "." ++ output_format)
                 ("application/" ++ output_format) bytes],
            dispatcherInvoked := true }
        | none =>
          { events := r.errors.map ShellEvent.errorMsg ++ [.errorMsg "Conversion failed."],
            dispatcherInvoked := true }
    else
      { events := [], dispatcherInvoked := false }

/-- A library whose every routine succeeds, for concrete evaluations. -/
def trivLib : EbookLib where
  read_epub := fun _ => .ok ⟨0⟩
  read_mobi := fun _ => .ok ⟨1⟩
  read_azw3 := fun _ => .ok ⟨2⟩
  write_epub := fun b => .ok [10, b.id]
  write_mobi := fun b => .ok [11, b.id]
  write_azw3 := fun b => .ok [12, b.id]

/-- A library whose every routine raises, for exercising the handler. -/
def failLib : EbookLib where
  read_epub := fun _ => .error "boom"
  read_mobi := fun _ => .error "boom"
  read_azw3 := fun _ => .error "boom"
  write_epub := fun _ => .error "boom"
  write_mobi := fun _ => .error "boom"
  write_azw3 := fun _ => .error "boom"

/-- A sample upload: three bytes, unread stream, epub filename. -/
def sampleUpload : UploadedFile := { name := "book.epub", content := [1, 2, 3], pos := 0 }

theorem pyExtChars_of_no_dot (b : List Char) (h : '.' ∉ b) : pyExtChars b = [] := by
  have hall : b.reverse.takeWhile (fun c => c ≠ '.') = b.reverse :=
    List.takeWhile_eq_self_iff.mpr (fun x hx => by
      have hxb : x ∈ b := List.mem_reverse.mp hx
      simp only [ne_eq, decide_eq_true_eq]
      intro hx2
      exact h (hx2 ▸ hxb))
  simp only [pyExtChars, hall]
  simp

theorem inferFormat_of_no_dot (p : String) (h : '.' ∉ basenameChars p.data) :
    inferFormat p = "" := by
  unfold inferFormat
  rw [pyExtChars_of_no_dot _ h]
  rfl

/-- C3: `convert_ebook` infers the source format from the name of the freshly
created temp file (whose basename has no dot), so the inferred format is the
empty string, the unsupported-input-format branch is taken, and the call
returns `None` with that error for every input, never invoking the library. -/
theorem c3_format_inferred_from_temp_name (lib : EbookLib) (tmpPath : String)
    (input_file : UploadedFile) (output_format output_name : String)
    (h : '.' ∉ basenameChars tmpPath.data) :
    inferFormat tmpPath = "" ∧
    (convert_ebook lib tmpPath input_file output_format output_name).ret = none ∧
    (convert_ebook lib tmpPath input_file output_format output_name).errors
      = [inputFormatErrorMsg ""] ∧
    (convert_ebook lib tmpPath input_file output_format output_name).libCalls = [] := by
  have hfmt := inferFormat_of_no_dot tmpPath h
  have hmem : ¬ ("" ∈ INPUT_FORMATS) := by decide
  refine ⟨hfmt, ?_, ?_, ?_⟩ <;>
    simp [convert_ebook, convert_try, hfmt, hmem]

/-- Witness for C3 at a concrete dot-free temp path. -/
theorem c3_witness :
    inferFormat "/tmp/tmpq1w2e3r4" = "" ∧
    (convert_ebook trivLib "/tmp/tmpq1w2e3r4" sampleUpload "mobi" "book1").ret = none ∧
    (convert_ebook trivLib "/tmp/tmpq1w2e3r4" sampleUpload "mobi" "book1").errors
      = [inputFormatErrorMsg ""] ∧
    (convert_ebook trivLib "/tmp/tmpq1w2e3r4" sampleUpload "mobi" "book1").libCalls = [] :=
  c3_format_inferred_from_temp_name trivLib "/tmp/tmpq1w2e3r4" sampleUpload "mobi" "book1"
    (by decide)

/-- C1: evaluation at the failing input.  With a real temp path (dot-free
basename) a same-format request returns `None` instead of the input bytes;
and even with a dotted temp path that makes the no-op branch reachable, the
branch re-reads the already-consumed stream and returns empty bytes rather
than the three uploaded bytes. -/
theorem c1_same_format_eval :
    (convert_ebook trivLib "/tmp/tmpq1w2e3r4" sampleUpload "epub" "book1").ret = none ∧
    (convert_ebook trivLib "/tmp/tmpx.epub" sampleUpload "epub" "book1").ret = some [] := by
  exact ⟨rfl, rfl⟩

/-- C4: evaluation at the failing input.  A mobi upload with target azw3 is
answered with the unsupported-input-format error (the inferred format is the
empty string), not the mobi-to-azw3 pair error; the pair branch is never
reached and no library routine runs. -/
theorem c4_mobi_azw3_eval :
    (convert_ebook trivLib "/tmp/tmpzz11aa22"
      { name := "book.mobi", content := [77, 78], pos := 0 } "azw3" "book1").ret = none ∧
    (convert_ebook trivLib "/tmp/tmpzz11aa22"
      { name := "book.mobi", content := [77, 78], pos := 0 } "azw3" "book1").errors
      = [inputFormatErrorMsg ""] ∧
    (convert_ebook trivLib "/tmp/tmpzz11aa22"
      { name := "book.mobi", content := [77, 78], pos := 0 } "azw3" "book1").libCalls = [] := by
  exact ⟨rfl, rfl, rfl⟩

/-- C5: an input whose originating filename suffix is outside the supported
set is rejected before any library read is attempted, with the
unsupported-input-format error, and the call returns `None`. -/
theorem c5_unsupported_suffix_rejected (lib : EbookLib) (tmpPath : String)
    (input_file : UploadedFile) (output_format output_name : String)
    (htmp : '.' ∉ basenameChars tmpPath.data)
    (_hname : inferFormat input_file.name ∉ INPUT_FORMATS) :
    (convert_ebook lib tmpPath input_file output_format output_name).ret = none ∧
    (convert_ebook lib tmpPath input_file output_format output_name).libCalls = [] ∧
    (convert_ebook lib tmpPath input_file output_format output_name).errors
      = [inputFormatErrorMsg ""] := by
  have hfmt := inferFormat_of_no_dot tmpPath htmp
  have hmem : ¬ ("" ∈ INPUT_FORMATS) := by decide
  refine ⟨?_, ?_, ?_⟩ <;>
    simp [convert_ebook, convert_try, hfmt, hmem]

/-- Witness for C5: a `.txt` upload staged at a concrete dot-free temp path. -/
theorem c5_witness :
    (convert_ebook trivLib "/tmp/tmpab12cd34"
      { name := "notes.txt", content := [5, 6], pos := 0 } "epub" "book1").ret = none ∧
    (convert_ebook trivLib "/tmp/tmpab12cd34"
      { name := "notes.txt", content := [5, 6], pos := 0 } "epub" "book1").libCalls = [] ∧
    (convert_ebook trivLib "/tmp/tmpab12cd34"
      { name := "notes.txt", content := [5, 6], pos := 0 } "epub" "book1").errors
      = [inputFormatErrorMsg ""] :=
  c5_unsupported_suffix_rejected trivLib "/tmp/tmpab12cd34"
    { name := "notes.txt", content := [5, 6], pos := 0 } "epub" "book1"
    (by decide) (by decide)

theorem convert_ebook_files_try (lib : EbookLib) (tmpPath : String) (input_file : UploadedFile)
    (output_format output_name : String) :
    (convert_ebook lib tmpPath input_file output_format output_name).files
      = (convert_try lib tmpPath input_file output_format output_name).files := by
  unfold convert_ebook
  dsimp only
  split <;> rfl

theorem convert_ebook_created_try (lib : EbookLib) (tmpPath : String) (input_file : UploadedFile)
    (output_format output_name : String) :
    (convert_ebook lib tmpPath input_file output_format output_name).created
      = (convert_try lib tmpPath input_file output_format output_name).created := by
  unfold convert_ebook
  dsimp only
  split <;> rfl

theorem convert_ebook_ret_some (lib : EbookLib) (tmpPath : String) (input_file : UploadedFile)
    (output_format output_name : String) (b : ByteContent) :
    (convert_ebook lib tmpPath input_file output_format output_name).ret = some b
      ↔ (convert_try lib tmpPath input_file output_format output_name).outcome
          = Except.ok (some b) := by
  unfold convert_ebook
  dsimp only
  split
  next v heq => simp [heq]
  next e heq => simp [heq]

theorem convert_ebook_ret_none (lib : EbookLib) (tmpPath : String) (input_file : UploadedFile)
    (output_format output_name : String) :
    (convert_ebook lib tmpPath input_file output_format output_name).ret = none
      ↔ ((convert_try lib tmpPath input_file output_format output_name).outcome
            = Except.ok none ∨
         ∃ e, (convert_try lib tmpPath input_file output_format output_name).outcome
            = Except.error e) := by
  unfold convert_ebook
  dsimp only
  split
  next v heq => simp [heq]
  next e heq => simp [heq]

theorem convert_try_cases (lib : EbookLib) (tmpPath : String) (input_file : UploadedFile)
    (output_format output_name : String) :
    (∀ b, inferFormat tmpPath ≠ output_format →
        (convert_try lib tmpPath input_file output_format output_name).outcome
          = Except.ok (some b) →
        (convert_try lib tmpPath input_file output_format output_name).files = [] ∧
        (convert_try lib tmpPath input_file output_format output_name).created
          = [(tmpPath, input_file.content.drop input_file.pos),
             (output_name ++ "." ++ output_format, b)]) ∧
    ((convert_try lib tmpPath input_file output_format output_name).outcome
          = Except.ok none →
        (convert_try lib tmpPath input_file output_format output_name).files
          = [(tmpPath, input_file.content.drop input_file.pos)] ∧
        (convert_try lib tmpPath input_file output_format output_name).errors ≠ []) ∧
    (∀ e, (convert_try lib tmpPath input_file output_format output_name).outcome
          = Except.error e →
        (convert_try lib tmpPath input_file output_format output_name).files
          = [(tmpPath, input_file.content.drop input_file.pos)]) ∧
    (inferFormat tmpPath = output_format → inferFormat tmpPath ∈ INPUT_FORMATS →
        (convert_try lib tmpPath input_file output_format output_name).files
          = [(tmpPath, input_file.content.drop input_file.pos)]) ∧
    (∀ b, (convert_try lib tmpPath input_file output_format output_name).outcome
          = Except.ok (some b) →
        (convert_try lib tmpPath input_file output_format output_name).errors = []) := by
  generalize hr : convert_try lib tmpPath input_file output_format output_name = r
  simp only [convert_try] at hr
  repeat' split at hr
  all_goals subst hr
  all_goals simp_all

/-- C2 counterexample: after a concrete call (the unsupported-input-format
exit path, the one every real call takes) the staged input temp file still
exists, so the temporary files are not deleted on every exit path. -/
theorem c2_counterexample :
    (convert_ebook trivLib "/tmp/tmpq1w2e3r4" sampleUpload "mobi" "book1").files ≠ [] := by
  decide

/-- C2 amended: the two staged files are deleted on the successful
cross-format conversion exit path, but on every exit path that returns
`None` — unsupported input format, unsupported pair, or a caught
exception — and on the same-format no-op path, the staged input temp file
is not deleted and persists after the call returns. -/
theorem c2_cleanup_only_on_success (lib : EbookLib) (tmpPath : String)
    (input_file : UploadedFile) (output_format output_name : String) :
    (∀ b, inferFormat tmpPath ≠ output_format →
      (convert_ebook lib tmpPath input_file output_format output_name).ret = some b →
      (convert_ebook lib tmpPath input_file output_format output_name).files = []) ∧
    ((convert_ebook lib tmpPath input_file output_format output_name).ret = none →
      (convert_ebook lib tmpPath input_file output_format output_name).files
        = [(tmpPath, input_file.content.drop input_file.pos)]) ∧
    (inferFormat tmpPath = output_format → inferFormat tmpPath ∈ INPUT_FORMATS →
      (convert_ebook lib tmpPath input_file output_format output_name).files
        = [(tmpPath, input_file.content.drop input_file.pos)]) := by
  obtain ⟨h1, h2, h3, h4, _h5⟩ :=
    convert_try_cases lib tmpPath input_file output_format output_name
  refine ⟨?_, ?_, ?_⟩
  · intro b hne hret
    rw [convert_ebook_files_try]
    exact (h1 b hne ((convert_ebook_ret_some lib tmpPath input_file
      output_format output_name b).mp hret)).1
  · intro hret
    rw [convert_ebook_files_try]
    rcases (convert_ebook_ret_none lib tmpPath input_file
        output_format output_name).mp hret with hok | ⟨e, herr⟩
    · exact (h2 hok).1
    · exact h3 e herr
  · intro heq hmem
    rw [convert_ebook_files_try]
    exact h4 heq hmem

/-- Witness for C2 amended: a successful epub-to-mobi conversion (dotted
temp path, all-succeeding library) leaves no files, while the rejected call
at a real dot-free temp path leaves the staged input file behind. -/
theorem c2_witness :
    (convert_ebook trivLib "/tmp/a.epub" sampleUpload "mobi" "book1").files = [] ∧
    (convert_ebook trivLib "/tmp/tmpq1w2e3r4" sampleUpload "mobi" "book1").files
      = [("/tmp/tmpq1w2e3r4", [1, 2, 3])] :=
  ⟨(c2_cleanup_only_on_success trivLib "/tmp/a.epub" sampleUpload "mobi" "book1").1
      [11, 0] (by decide) (by decide),
   (c2_cleanup_only_on_success trivLib "/tmp/tmpq1w2e3r4" sampleUpload "mobi" "book1").2.1
      (by decide)⟩

/-- C6: every exception the try body raises (any failing library read or
write) is caught at the dispatcher boundary: the call still returns a
normal result, with `None` and the caught-error message appended to the
emitted errors; nothing propagates to the caller. -/
theorem c6_exceptions_caught (lib : EbookLib) (tmpPath : String)
    (input_file : UploadedFile) (output_format output_name : String) (e : String)
    (h : (convert_try lib tmpPath input_file output_format output_name).outcome
      = Except.error e) :
    (convert_ebook lib tmpPath input_file output_format output_name).ret = none ∧
    (convert_ebook lib tmpPath input_file output_format output_name).errors
      = (convert_try lib tmpPath input_file output_format output_name).errors
          ++ [convErrMsg e] := by
  unfold convert_ebook
  dsimp only
  split
  next v heq => rw [heq] at h; exact absurd h (by simp)
  next e' heq =>
    have he : e' = e := Except.error.inj (heq.symm.trans h)
    subst he
    exact ⟨rfl, rfl⟩

/-- Witness for C6: with the all-raising library and a dotted temp path the
epub-to-mobi branch raises, and the caught message is surfaced. -/
theorem c6_witness :
    (convert_ebook failLib "/tmp/tmp1.epub" sampleUpload "mobi" "book1").ret = none ∧
    (convert_ebook failLib "/tmp/tmp1.epub" sampleUpload "mobi" "book1").errors
      = (convert_try failLib "/tmp/tmp1.epub" sampleUpload "mobi" "book1").errors
          ++ [convErrMsg "boom"] :=
  c6_exceptions_caught failLib "/tmp/tmp1.epub" sampleUpload "mobi" "book1" "boom" (by decide)

/-- C7: with any upload present, pressing Convert with an empty output name
renders exactly the invalid-name error and never invokes `convert_ebook`. -/
theorem c7_empty_output_name_rejected (lib : EbookLib) (tmpPath : String)
    (input_file : UploadedFile) (output_format : String) :
    mainLogic lib tmpPath (some input_file) output_format "" true
      = { events := [ShellEvent.errorMsg "Please enter a valid output file name."],
          dispatcherInvoked := false } := rfl

/-- C8: whenever `convert_ebook` returns bytes, the shell renders the
success message and a download action named `output_name.output_format`
with MIME type `application/output_format` carrying those bytes. -/
theorem c8_success_download_name_and_mime (lib : EbookLib) (tmpPath : String)
    (input_file : UploadedFile) (output_format output_name : String) (bytes : ByteContent)
    (hname : output_name ≠ "")
    (hret : (convert_ebook lib tmpPath input_file output_format output_name).ret
      = some bytes) :
    mainLogic lib tmpPath (some input_file) output_format output_name true
      = { events := (convert_ebook lib tmpPath input_file
              output_format output_name).errors.map ShellEvent.errorMsg ++
            [ShellEvent.success ("Successfully converted to " ++ output_format ++ "!"),
             ShellEvent.download ("Download " ++ output_name ++ "." ++ output_format)
               (output_name ++ "." ++ output_format)
               ("application/" ++ output_format) bytes],
          dispatcherInvoked := true } := by
  simp only [mainLogic, if_true]
  rw [if_neg hname]
  split
  next b heq =>
    have hb : some b = some bytes := heq.symm.trans hret
    rw [Option.some.inj hb]
  next heq => rw [heq] at hret; exact absurd hret (by simp)

/-- Witness for C8: a dotted temp path with matching formats makes the
no-op branch return bytes, and the shell offers `book1.epub` with MIME
`application/epub`. -/
theorem c8_witness :
    mainLogic trivLib "/tmp/t.epub" (some sampleUpload) "epub" "book1" true
      = { events := [ShellEvent.success "Successfully converted to epub!",
             ShellEvent.download "Download book1.epub" "book1.epub" "application/epub" []],
          dispatcherInvoked := true } := by
  have h := c8_success_download_name_and_mime trivLib "/tmp/t.epub" sampleUpload
    "epub" "book1" [] (by decide) (by decide)
  rw [h]
  decide

/-- C9: a `convert_ebook` call returns `None` exactly when it emitted an
error message: every failure path (unsupported input format, unsupported
pair, mobi-to-azw3 rejection, caught exception) collapses to the same
`None`, and every non-`None` return emitted no error. -/
theorem c9_failures_collapse_to_none (lib : EbookLib) (tmpPath : String)
    (input_file : UploadedFile) (output_format output_name : String) :
    (convert_ebook lib tmpPath input_file output_format output_name).ret = none
      ↔ (convert_ebook lib tmpPath input_file output_format output_name).errors ≠ [] := by
  obtain ⟨_h1, h2, _h3, _h4, h5⟩ :=
    convert_try_cases lib tmpPath input_file output_format output_name
  unfold convert_ebook
  dsimp only
  split
  next v heq =>
    cases v with
    | none =>
      simp only [true_iff, eq_self_iff_true]
      simpa using (h2 heq).2
    | some b =>
      simp only [reduceCtorEq, false_iff, ne_eq, not_not]
      simpa using h5 b heq
  next e heq =>
    simp

/-- C10: whenever a non-no-op conversion succeeds, the only file the call
creates besides the staged input is the converted output, written at the
path `output_name.output_format` built verbatim from the user-supplied
name — a bare relative path, not a dedicated temporary location. -/
theorem c10_output_written_to_user_path (lib : EbookLib) (tmpPath : String)
    (input_file : UploadedFile) (output_format output_name : String)
    (outBytes : ByteContent)
    (hne : inferFormat tmpPath ≠ output_format)
    (hret : (convert_ebook lib tmpPath input_file output_format output_name).ret
      = some outBytes) :
    (convert_ebook lib tmpPath input_file output_format output_name).created
      = [(tmpPath, input_file.content.drop input_file.pos),
         (output_name ++ "." ++ output_format, outBytes)] := by
  obtain ⟨h1, _h2, _h3, _h4, _h5⟩ :=
    convert_try_cases lib tmpPath input_file output_format output_name
  rw [convert_ebook_created_try]
  exact (h1 outBytes hne ((convert_ebook_ret_some lib tmpPath input_file
    output_format output_name outBytes).mp hret)).2

/-- Witness for C10: a successful epub-to-mobi conversion stages the upload
at the temp path and writes the output at `book1.mobi`. -/
theorem c10_witness :
    (convert_ebook trivLib "/tmp/x.epub" sampleUpload "mobi" "book1").created
      = [("/tmp/x.epub", [1, 2, 3]), ("book1.mobi", [11, 0])] := by
  have h := c10_output_written_to_user_path trivLib "/tmp/x.epub" sampleUpload
    "mobi" "book1" [11, 0] (by decide) (by decide)
  rw [h]
  decide
